import Mathlib

/-!
# OceanBase vector-store provider

A shallow embedding of `server/utils/vectorDbProviders/oceanbase/index.js`:
the score conversion `distanceToSimilarity`, the threshold scan of
`similarityResponse`, `curateSources`, `namespaceExists`, the serialiser
`OBVECTOR._stringify`, `connect`, the collection write
`updateOrCreateCollection` and the ingestion routine `addDocumentToNamespace`.

Conventions of the embedding.
* JavaScript numbers are the finite ones and are represented by rationals;
  `NaN` and the infinities are outside the model.
* A JavaScript object whose values are scalars is an association list in key
  insertion order.
* An `async` function is its sequential body; a rejected promise is a thrown
  error, and a thrown error is represented by its `message`.
* Calls into code outside the file (cache, embedding provider, text splitter,
  mapping store, the database library) are given by their outcome, a returned
  value or a thrown message; the functions of the file itself are embedded.
-/

namespace OceanBase

/-! ## Values -/

/-- Scalar JavaScript values. -/
inductive JsValue where
  | undefined
  | null
  | boolean (b : Bool)
  | number (q : ℚ)
  | string (s : String)
deriving DecidableEq

/-- Objects with scalar values, keys in insertion order. -/
abbrev JsObject := List (String × JsValue)

/-- Property read `o[k]`: the value stored under `k`, `undefined` when the key is absent. -/
def JsObject.get (o : JsObject) (k : String) : JsValue :=
  (o.lookup k).getD JsValue.undefined

/-- The operator `typeof` on scalars. -/
def typeof : JsValue → String
  | JsValue.undefined => "undefined"
  | JsValue.null => "object"
  | JsValue.boolean _ => "boolean"
  | JsValue.number _ => "number"
  | JsValue.string _ => "string"

/-! ## Similarity query engine -/

/-- Source lines 289-294.
```
distanceToSimilarity: function (distance = null) {
  if (distance === null || typeof distance !== "number") return 0.0;
  if (distance >= 1.0) return 1;
  if (distance <= 0) return 0;
  return 1 - distance;
}
```
The default parameter turns `undefined` into `null`. -/
def distanceToSimilarity (distance : JsValue := JsValue.null) : ℚ :=
  match (if distance = JsValue.undefined then JsValue.null else distance) with
  | JsValue.number d =>
    if d ≥ 1 then 1
    else if d ≤ 0 then 0
    else 1 - d
  | _ => 0

/-- One row of the nearest-neighbour query `SELECT metadata, ... as score`:
the stored metadata object and the raw distance. -/
structure AnnRow where
  metadata : JsObject
  score : JsValue
deriving DecidableEq

/-- The accumulator `result` of `similarityResponse`. -/
structure SimilarityResult where
  contextTexts : List JsValue
  sourceDocuments : List AnnRow
  scores : List ℚ
deriving DecidableEq

/-- The `for (const ann_row of ann_query_result)` loop of `similarityResponse`
(source lines 310-317): a row below the threshold executes `return result`,
any other row is pushed onto the three arrays. -/
def similarityScan (similarityThreshold : ℚ) : List AnnRow → SimilarityResult → SimilarityResult
  | [], result => result
  | ann_row :: rest, result =>
    if distanceToSimilarity ann_row.score < similarityThreshold then result
    else
      similarityScan similarityThreshold rest
        { contextTexts := result.contextTexts ++ [ann_row.metadata.get "text"]
          sourceDocuments := result.sourceDocuments ++ [ann_row]
          scores := result.scores ++ [distanceToSimilarity ann_row.score] }

/-- Source lines 295-319, after the query has produced `ann_query_result`
(rows ordered by ascending distance, at most `topN` of them). -/
def similarityResponse (ann_query_result : List AnnRow) (similarityThreshold : ℚ := 1 / 4) :
    SimilarityResult :=
  similarityScan similarityThreshold ann_query_result
    { contextTexts := [], sourceDocuments := [], scores := [] }

/-! ## Result curation -/

/-- The keys of an object, `Object.keys(o)`. -/
def JsObject.keys (o : JsObject) : List String :=
  o.map Prod.fst

/-- The object literal `{...o, k: v}`: an existing key keeps its position and takes the new
value, a new key is appended. -/
def JsObject.set (o : JsObject) (k : String) (v : JsValue) : JsObject :=
  if o.any (fun p => p.1 == k) then o.map (fun p => if p.1 = k then (p.1, v) else p)
  else o ++ [(k, v)]

/-- An element of the `sources` array handed to `curateSources`. `metadata` is `none` when
the property is absent (so the destructuring default `{}` applies); `pageContent` is `some v`
exactly when `source.hasOwnProperty("pageContent")`; `fields` are the other own properties. -/
structure Source where
  metadata : Option JsObject
  pageContent : Option JsValue
  fields : JsObject
deriving DecidableEq

/-- The record pushed by `curateSources` for a source that is kept (source lines 353-358):
`{...metadata, ...(source.hasOwnProperty("pageContent") ? {text: source.pageContent} : {})}`. -/
def curatedRecord (source : Source) : JsObject :=
  match source.pageContent with
  | some pageContent => (source.metadata.getD []).set "text" pageContent
  | none => source.metadata.getD []

/-- Source lines 348-362: the loop over `sources` pushing onto `documents`. -/
def curateSources (sources : List Source := []) : List JsObject :=
  sources.foldl
    (fun documents source =>
      if (JsObject.keys (source.metadata.getD [])).length > 0 then
        documents ++ [curatedRecord source]
      else documents)
    []

/-- Source lines 280-282 of `performSimilaritySearch`:
`sourceDocuments.map((metadata, i) => ({ ...metadata, text: contextTexts[i] }))`.
The mapped element is the whole query row, so the source has the row's `metadata` and
`score` and the added `text`, and no `pageContent`. -/
def searchSources (r : SimilarityResult) : List Source :=
  r.sourceDocuments.enum.map
    (fun p =>
      { metadata := some p.2.metadata
        pageContent := none
        fields := [("score", p.2.score), ("text", r.contextTexts.getD p.1 JsValue.undefined)] })

/-! ## Namespace registry -/

/-- The physical table name `VTB_${namespace}` used by `updateOrCreateCollection`
(source lines 150-152), the query of `similarityResponse` (line 307),
`deleteVectorsInNamespace` (line 123) and `namespace` (line 99). -/
def tableName (ns : String) : String :=
  "VTB_" ++ ns

/-- The read `vtb[Object.keys(vtb)[0]]` (source line 118): the value under the first key of a row
of the table listing; a row without keys yields `undefined`. -/
def firstValue (vtb : JsObject) : JsValue :=
  match vtb with
  | [] => JsValue.undefined
  | (_, v) :: _ => v

/-- Source lines 114-121, given the listing `vtbs` returned by `this.tables(_client)`.
`namespace` is `none` for `null` or an omitted argument; `!namespace` also holds for the
empty string. -/
def namespaceExists (vtbs : List JsObject) (ns : Option String := none) : Except String Bool :=
  match ns with
  | none => Except.error "No namespace value provided."
  | some name =>
    if name = "" then Except.error "No namespace value provided."
    else
      let table_names := vtbs.map firstValue
      Except.ok (table_names.contains (JsValue.string name))

/-- The object returned by `performSimilaritySearch`. -/
structure SearchResponse where
  contextTexts : List JsValue
  sources : List JsObject
  message : JsValue
deriving DecidableEq

/-- Truthiness of a scalar. -/
def truthy : JsValue → Bool
  | JsValue.undefined => false
  | JsValue.null => false
  | JsValue.boolean b => b
  | JsValue.number q => decide (q ≠ 0)
  | JsValue.string s => decide (s ≠ "")

/-- Source lines 252-288. The store is given by the table listing `vtbs` (what
`SHOW TABLES LIKE 'VTB_%'` returns) and by `select`, the rows the nearest-neighbour query
returns for a physical table name, a query vector and `topN`. `embedTextInput` is the
connector method, `none` when no connector is passed; `connect` is the outcome of
`this.connect()`. -/
def performSimilaritySearch (connect : Except String Unit) (vtbs : List JsObject)
    (select : String → List ℚ → Nat → Except String (List AnnRow))
    (ns : Option String) (input : JsValue)
    (embedTextInput : Option (JsValue → Except String (List ℚ)))
    (similarityThreshold : ℚ := 1 / 4) (topN : Nat := 4) : Except String SearchResponse :=
  match ns, embedTextInput with
  | some name, some embed =>
    if name = "" ∨ truthy input = false then
      Except.error "Invalid request to performSimilaritySearch."
    else
      match connect with
      | Except.error e => Except.error e
      | Except.ok _ =>
        match namespaceExists vtbs (some name) with
        | Except.error e => Except.error e
        | Except.ok false =>
          Except.ok
            { contextTexts := []
              sources := []
              message := JsValue.string "Invalid query - no documents found for workspace!" }
        | Except.ok true =>
          match embed input with
          | Except.error e => Except.error e
          | Except.ok queryVector =>
            match select (tableName name) queryVector topN with
            | Except.error e => Except.error e
            | Except.ok ann_query_result =>
              let r := similarityResponse ann_query_result similarityThreshold
              Except.ok
                { contextTexts := r.contextTexts
                  sources := curateSources (searchSources r)
                  message := JsValue.boolean false }
  | _, _ => Except.error "Invalid request to performSimilaritySearch."

/-! ## The vector column type -/

/-- The argument of `_stringify`: an array with its elements, or a value that is no array. -/
inductive FieldValue where
  | array (elements : List JsValue)
  | other (v : JsValue)
deriving DecidableEq

/-- The string an array element contributes to `Array.prototype.join`: `null` and
`undefined` give the empty string, any other element its `ToString`. `numberToString` is
the number-to-string conversion of the language. -/
def joinElement (numberToString : ℚ → String) : JsValue → String
  | JsValue.undefined => ""
  | JsValue.null => ""
  | JsValue.boolean b => if b then "true" else "false"
  | JsValue.number q => numberToString q
  | JsValue.string s => s

/-- The method `OBVECTOR._stringify` (source lines 20-26) of an instance built with `this.dim = dim`. -/
def OBVECTOR._stringify (numberToString : ℚ → String) (dim : Nat) (value : FieldValue) :
    Except String String :=
  match value with
  | FieldValue.array elements =>
    if elements.length = dim then
      Except.ok ("'[" ++ String.intercalate "," (elements.map (joinElement numberToString)) ++ "]'")
    else
      Except.error ("VECTOR(" ++ toString dim ++ ") received a value of incorrect dimension")
  | FieldValue.other _ =>
    Except.error ("VECTOR(" ++ toString dim ++ ") received a value of incorrect dimension")

/-! ## Document ingestion -/

/-- A cached chunk `{values, metadata}`. -/
structure CachedChunk where
  values : List ℚ
  metadata : JsObject
deriving DecidableEq

/-- What `cachedVectorInformation(fullFilePath)` resolves to. -/
structure CacheResult where
  «exists» : Bool
  chunks : List (List CachedChunk)
deriving DecidableEq

/-- A row `{id, vector, metadata}` built on the cache-hit path (source line 188). -/
structure Submission where
  id : String
  vector : List ℚ
  metadata : JsObject
deriving DecidableEq

/-- A record `{id, values, metadata}` built on the cache-miss path (source lines 212-219). -/
structure VectorRecord where
  id : String
  values : List ℚ
  metadata : JsObject
deriving DecidableEq

/-- A pair `{docId, vectorId}` for `DocumentVectors.bulkInsert`. -/
structure DocumentVector where
  docId : JsValue
  vectorId : String
deriving DecidableEq

/-- An element of the array passed as `data` to `updateOrCreateCollection`: a row of the
cache-hit path (line 192) or a record of the cache-miss path (line 237). -/
inductive WriteRow where
  | submission (row : Submission)
  | record (row : VectorRecord)
deriving DecidableEq

/-- The read `new_row.id` (source line 160). -/
def WriteRow.id : WriteRow → String
  | WriteRow.submission row => row.id
  | WriteRow.record row => row.id

/-- The read `new_row.metadata` (source line 162). -/
def WriteRow.metadata : WriteRow → JsObject
  | WriteRow.submission row => row.metadata
  | WriteRow.record row => row.metadata

/-- The read `new_row.vector` (source line 161) as the value given to the column type:
the array of numbers of a submission, `undefined` for a record, which carries `values` and
no `vector`. -/
def WriteRow.embedding : WriteRow → FieldValue
  | WriteRow.submission row => FieldValue.array (row.vector.map JsValue.number)
  | WriteRow.record _ => FieldValue.other JsValue.undefined

/-- The array passed as `data` to `updateOrCreateCollection`. `rows` are its elements.
`vector` is the value of a property named `vector` on the array object itself, `none` when
the array has no such property; an array has own properties for its indices and `length`
only, so every array built in this module has `vector := none`. -/
structure WriteData where
  rows : List WriteRow
  vector : Option (List ℚ)
deriving DecidableEq

/-- The calls and explicit throws of `addDocumentToNamespace` and of the
`updateOrCreateCollection` it runs. `embeddingCheck` is the `throw` of source lines 225-227,
`dataVectorLength` the read `data.vector.length` of line 133, `columnType` the call
`DataTypes.OBVECTOR(dim)` of line 141, `define`, `sync` and `create` the calls of lines 150,
155 and 159. -/
inductive Step where
  | cachedVectorInformation
  | connect
  | getEmbeddingEngineSelection
  | splitText
  | getLLMProvider
  | embedChunks
  | embeddingCheck
  | dataVectorLength
  | columnType
  | define
  | sync
  | create
  | storeVectorResult
  | bulkInsert
deriving DecidableEq

/-- One executed step and whether it threw (`some message`) or returned (`none`). -/
structure Call where
  step : Step
  threw : Option String
deriving DecidableEq

/-- The environment of a call: the process environment, the outcome of every call into
code outside this file (it returns, `Except.ok`, or throws an error with a message,
`Except.error`), and the engine's messages. `undefinedRead p` is the message of the
TypeError for reading property `p` of `undefined`, `classCall c` the message of the
TypeError for invoking class `c` without `new`, `numberToString` the number-to-string
conversion, `uuidv4 i` the identifier the `i`-th call of `uuidv4()` returns. -/
structure World where
  VECTOR_DB : Option String
  newSequelize : Except String Unit
  authenticate : Except String Unit
  cachedVectorInformation : Option String → Except String CacheResult
  getEmbeddingEngineSelection : Except String (Option Nat)
  splitText : Nat → Nat → JsValue → Except String (List String)
  getLLMProvider : Except String Unit
  embedChunks : List String → Except String (Option (List (List ℚ)))
  undefinedRead : String → String
  classCall : String → String
  numberToString : ℚ → String
  define : String → Except String Unit
  sync : String → Nat → Except String Unit
  insert : String → String → String → JsObject → Except String Unit
  toChunks : List VectorRecord → Nat → List (List VectorRecord)
  storeVectorResult : List (List VectorRecord) → Option String → Except String Unit
  bulkInsert : List DocumentVector → Except String Unit
  uuidv4 : Nat → String

/-- What `addDocumentToNamespace` returns: a bare scalar or an object. -/
inductive Returned where
  | value (v : JsValue)
  | object (o : JsObject)
deriving DecidableEq

/-- A computation: from the steps recorded so far to a completion (returned value or thrown
message) and the steps recorded. -/
abbrev Run (α : Type) := List Call → Except String α × List Call

/-- Perform one step: record it, then continue with its result or stop with its error. -/
def call {α β : Type} (step : Step) (outcome : Except String α) (k : α → Run β) : Run β :=
  fun log =>
    match outcome with
    | Except.ok a => k a (log ++ [{ step := step, threw := none }])
    | Except.error m => (Except.error m, log ++ [{ step := step, threw := some m }])

/-- A statement that throws an error with message `m`, recorded under `step`. -/
def raise {α : Type} (step : Step) (m : String) : Run α :=
  fun log => (Except.error m, log ++ [{ step := step, threw := some m }])

/-- The statement `return v`. -/
def ret {α : Type} (v : α) : Run α :=
  fun log => (Except.ok v, log)

/-- Run `r`, then continue with its result; a throw of `r` ends the computation. -/
def andThen {α β : Type} (r : Run α) (k : α → Run β) : Run β :=
  fun log =>
    match r log with
    | (Except.ok a, log1) => k a log1
    | (Except.error m, log1) => (Except.error m, log1)

/-- Source lines 42-64, `connect`: the environment test, the construction of the Sequelize
handle, and `authenticate()` whose error is replaced by a fixed message. -/
def connect (w : World) : Except String Unit :=
  if w.VECTOR_DB ≠ some "oceanbase" then Except.error "OceanBase::Invalid ENV settings"
  else
    match w.newSequelize with
    | Except.error m => Except.error m
    | Except.ok _ =>
      match w.authenticate with
      | Except.error _ => Except.error "OceanBase::Invalid cannot connect to oceanbase"
      | Except.ok _ => Except.ok ()

/-- The call `DataTypes.OBVECTOR(dim)` of source line 141. `OBVECTOR` is declared with
`class` (line 12) and stored as it is in `DataTypes.OBVECTOR` (line 38); a class invoked
without `new` throws a TypeError. -/
def callOBVECTOR (w : World) (_dim : Nat) : Except String Nat :=
  Except.error (w.classCall "OBVECTOR")

/-- The call `vector_table.create({id, embedding, metadata})` of source lines 159-163 for a
column of type `OBVECTOR(dim)`: the `embedding` value is serialised with `_stringify`, and
the insert statement is sent, with outcome `w.insert`. -/
def createRow (w : World) (table : String) (dim : Nat) (new_row : WriteRow) :
    Except String Unit :=
  match OBVECTOR._stringify w.numberToString dim new_row.embedding with
  | Except.error m => Except.error m
  | Except.ok literal => w.insert table new_row.id literal new_row.metadata

/-- The loop `for (const new_row of data)` of source lines 158-164. -/
def createRows (w : World) (table : String) (dim : Nat) : List WriteRow → Run Unit
  | [] => ret ()
  | new_row :: rest =>
    call Step.create (createRow w table dim new_row) fun _ => createRows w table dim rest

/-- Source lines 132-165, `updateOrCreateCollection`, called with a connection.
Line 133 reads `data.vector.length`: when the array has no property `vector` the read of
`length` is on `undefined` and throws a TypeError. Otherwise line 141 calls
`DataTypes.OBVECTOR(dim)`, then the table `VTB_${namespace}` is defined and synchronised and
each row is created. -/
def updateOrCreateCollection (w : World) (data : WriteData) (ns : String) : Run Unit :=
  match data.vector with
  | none => raise Step.dataVectorLength (w.undefinedRead "length")
  | some vector =>
    let dim := vector.length
    call Step.columnType (callOBVECTOR w dim) fun columnDim =>
    call Step.define (w.define (tableName ns)) fun _ =>
    call Step.sync (w.sync (tableName ns) columnDim) fun _ =>
    createRows w (tableName ns) columnDim data.rows

/-- The property read `pageContent.length`, on a value that is neither `null` nor
`undefined`. -/
def lengthOf : JsValue → JsValue
  | JsValue.string s => JsValue.number s.length
  | _ => JsValue.undefined

/-- The comparison `v == 0` for `v` a number or `undefined`. -/
def looseEqZero : JsValue → Bool
  | JsValue.number q => decide (q = 0)
  | _ => false

/-- The test `!pageContent || pageContent.length == 0` of source line 174. -/
def emptyContent (pageContent : JsValue) : Bool :=
  !truthy pageContent || looseEqZero (lengthOf pageContent)

/-- The record `{ vectorized: true, error: null }`. -/
def vectorizedOk : Returned :=
  Returned.object [("vectorized", JsValue.boolean true), ("error", JsValue.null)]

/-- The record `{ vectorized: false, error: m }`. -/
def vectorizedError (m : String) : Returned :=
  Returned.object [("vectorized", JsValue.boolean false), ("error", JsValue.string m)]

/-- The message of the `throw` of source lines 225-227. -/
def couldNotEmbed : String :=
  "Could not embed document chunks! This document will not be recorded."

/-- The chunk size of source lines 198-199:
`getEmbeddingEngineSelection()?.embeddingMaxChunkLength || 1_000`. -/
def chunkSize (selection : Option Nat) : Nat :=
  match selection with
  | some n => if n = 0 then 1000 else n
  | none => 1000

/-- The `try` block of `addDocumentToNamespace` (source lines 173-242). -/
def addDocumentBody (w : World) (ns : String) (documentData : JsObject)
    (fullFilePath : Option String) : Run Returned :=
  let pageContent := documentData.get "pageContent"
  let docId := documentData.get "docId"
  let metadata : JsObject := documentData.filter (fun p => p.1 ≠ "pageContent" ∧ p.1 ≠ "docId")
  if emptyContent pageContent then ret (Returned.value (JsValue.boolean false))
  else
    call Step.cachedVectorInformation (w.cachedVectorInformation fullFilePath) fun cacheResult =>
    if cacheResult.exists then
      call Step.connect (connect w) fun _ =>
      let cached := cacheResult.chunks.flatten.enum
      let documentVectors : List DocumentVector :=
        cached.map (fun p => { docId := docId, vectorId := w.uuidv4 p.1 })
      let submissions : List Submission :=
        cached.map (fun p => { id := w.uuidv4 p.1, vector := p.2.values, metadata := p.2.metadata })
      andThen
        (updateOrCreateCollection w
          { rows := submissions.map WriteRow.submission, vector := none } ns) fun _ =>
      call Step.bulkInsert (w.bulkInsert documentVectors) fun _ =>
      ret vectorizedOk
    else
      call Step.getEmbeddingEngineSelection w.getEmbeddingEngineSelection fun selection =>
      call Step.splitText (w.splitText (chunkSize selection) 20 pageContent) fun textChunks =>
      call Step.getLLMProvider w.getLLMProvider fun _ =>
      call Step.embedChunks (w.embedChunks textChunks) fun vectorValues =>
      match vectorValues with
      | none => raise Step.embeddingCheck couldNotEmbed
      | some [] => raise Step.embeddingCheck couldNotEmbed
      | some (v :: vs) =>
        let vectors : List VectorRecord :=
          (v :: vs).enum.map (fun p =>
            { id := w.uuidv4 p.1
              values := p.2
              metadata := metadata.set "text"
                (match textChunks.get? p.1 with
                 | some t => JsValue.string t
                 | none => JsValue.undefined) })
        let documentVectors : List DocumentVector :=
          vectors.map (fun r => { docId := docId, vectorId := r.id })
        if vectors.length > 0 then
          call Step.connect (connect w) fun _ =>
          let chunks := w.toChunks vectors 500
          andThen
            (updateOrCreateCollection w
              { rows := vectors.map WriteRow.record, vector := none } ns) fun _ =>
          call Step.storeVectorResult (w.storeVectorResult chunks fullFilePath) fun _ =>
          call Step.bulkInsert (w.bulkInsert documentVectors) fun _ =>
          ret vectorizedOk
        else
          call Step.bulkInsert (w.bulkInsert documentVectors) fun _ =>
          ret vectorizedOk

/-- Source lines 166-247: the `try` block, and the `catch (e)` that turns a thrown error
into `{ vectorized: false, error: e.message }`. The second component lists the steps made. -/
def addDocumentToNamespace (w : World) (ns : String) (documentData : JsObject := [])
    (fullFilePath : Option String := none) : Except String Returned × List Call :=
  match addDocumentBody w ns documentData fullFilePath [] with
  | (Except.ok r, log) => (Except.ok r, log)
  | (Except.error m, log) => (Except.ok (vectorizedError m), log)

/-- No recorded step threw. -/
def Clean (log : List Call) : Prop :=
  ∀ c ∈ log, c.threw = none

/-- A completion agrees with its record of steps: after a normal return no step threw, and
after a throw with message `m` the only message any recorded step threw is `m`. -/
def Agrees {α : Type} (out : Except String α × List Call) : Prop :=
  match out.1 with
  | Except.ok _ => Clean out.2
  | Except.error m => ∀ c ∈ out.2, ∀ m', c.threw = some m' → m' = m

/-- A computation that keeps `Agrees` when started after steps that all returned. -/
def Sound {α : Type} (r : Run α) : Prop :=
  ∀ log, Clean log → Agrees (r log)

/-- A world in which the cache misses and every call into outside code returns: two chunks,
two vectors of dimension 2. -/
def quietWorld : World where
  VECTOR_DB := some "oceanbase"
  newSequelize := Except.ok ()
  authenticate := Except.ok ()
  cachedVectorInformation := fun _ => Except.ok { «exists» := false, chunks := [] }
  getEmbeddingEngineSelection := Except.ok none
  splitText := fun _ _ _ => Except.ok ["a", "b"]
  getLLMProvider := Except.ok ()
  embedChunks := fun _ => Except.ok (some [[1, 0], [0, 1]])
  undefinedRead := fun p => "Cannot read properties of undefined (reading " ++ p ++ ")"
  classCall := fun c => "Class constructor " ++ c ++ " cannot be invoked without new"
  numberToString := fun q => toString q.num
  define := fun _ => Except.ok ()
  sync := fun _ _ => Except.ok ()
  insert := fun _ _ _ _ => Except.ok ()
  toChunks := fun vectors _ => [vectors]
  storeVectorResult := fun _ _ => Except.ok ()
  bulkInsert := fun _ => Except.ok ()
  uuidv4 := fun i => "id" ++ toString i

/-- The world `quietWorld` with an embedding provider that throws the message `boom`. -/
def failingWorld : World :=
  { quietWorld with embedChunks := fun _ => Except.error "boom" }

/-- The world `quietWorld` with an embedding provider that returns no vectors (`null`). -/
def noVectorsWorld : World :=
  { quietWorld with embedChunks := fun _ => Except.ok none }

/-- The world `quietWorld` with a cache that holds one chunk for every file. -/
def cachedWorld : World :=
  { quietWorld with
    cachedVectorInformation := fun _ =>
      Except.ok { «exists» := true, chunks := [[{ values := [1, 0], metadata := [] }]] } }

/-- The document `{pageContent: "hello", docId: "d1", title: "t"}`. -/
def sampleDocument : JsObject :=
  [("pageContent", JsValue.string "hello"), ("docId", JsValue.string "d1"),
   ("title", JsValue.string "t")]

/-! ## Theorems -/

theorem distanceToSimilarity_number (d : ℚ) :
    distanceToSimilarity (JsValue.number d) = if d ≥ 1 then 1 else if d ≤ 0 then 0 else 1 - d := by
  simp [distanceToSimilarity]

theorem similarityScan_append (t : ℚ) (pre rest : List AnnRow) (acc : SimilarityResult)
    (hpre : ∀ x ∈ pre, ¬ distanceToSimilarity x.score < t) :
    similarityScan t (pre ++ rest) acc =
      similarityScan t rest
        { contextTexts := acc.contextTexts ++ pre.map (fun x => x.metadata.get "text")
          sourceDocuments := acc.sourceDocuments ++ pre
          scores := acc.scores ++ pre.map (fun x => distanceToSimilarity x.score) } := by
  induction pre generalizing acc with
  | nil => simp
  | cons x xs ih =>
    have hx : ¬ distanceToSimilarity x.score < t := hpre x (by simp)
    have hxs : ∀ y ∈ xs, ¬ distanceToSimilarity y.score < t := fun y hy => hpre y (by simp [hy])
    have h := ih { contextTexts := acc.contextTexts ++ [x.metadata.get "text"]
                   sourceDocuments := acc.sourceDocuments ++ [x]
                   scores := acc.scores ++ [distanceToSimilarity x.score] } hxs
    simp [similarityScan, hx, h]

theorem similarityResponse_takeWhile (rows : List AnnRow) (t : ℚ) :
    similarityResponse rows t =
      { contextTexts :=
          (rows.takeWhile (fun r => decide (t ≤ distanceToSimilarity r.score))).map
            (fun r => r.metadata.get "text")
        sourceDocuments := rows.takeWhile (fun r => decide (t ≤ distanceToSimilarity r.score))
        scores :=
          (rows.takeWhile (fun r => decide (t ≤ distanceToSimilarity r.score))).map
            (fun r => distanceToSimilarity r.score) } := by
  have key : ∀ (l : List AnnRow) (acc : SimilarityResult),
      similarityScan t l acc =
        { contextTexts := acc.contextTexts ++
            (l.takeWhile (fun r => decide (t ≤ distanceToSimilarity r.score))).map
              (fun r => r.metadata.get "text")
          sourceDocuments := acc.sourceDocuments ++
            l.takeWhile (fun r => decide (t ≤ distanceToSimilarity r.score))
          scores := acc.scores ++
            (l.takeWhile (fun r => decide (t ≤ distanceToSimilarity r.score))).map
              (fun r => distanceToSimilarity r.score) } := by
    intro l
    induction l with
    | nil => intro acc; simp [similarityScan]
    | cons x xs ih =>
      intro acc
      by_cases hx : distanceToSimilarity x.score < t
      · have hx2 : ¬ t ≤ distanceToSimilarity x.score := not_le.mpr hx
        simp [similarityScan, hx, List.takeWhile_cons, hx2]
      · have hx2 : t ≤ distanceToSimilarity x.score := not_lt.mp hx
        simp [similarityScan, hx, List.takeWhile_cons, hx2, ih]
  simpa [similarityResponse] using key rows { contextTexts := [], sourceDocuments := [], scores := [] }

/-- C1: `distanceToSimilarity(d)` is 0 when `d` is null (or the omitted argument), is not of
type number, or is a number `<= 0`; it is 1 when `d >= 1`; and it is `1 - d` when `0 < d < 1`. -/
theorem distanceToSimilarity_cases (d : JsValue) :
    ((d = JsValue.null ∨ d = JsValue.undefined ∨ typeof d ≠ "number" ∨
        ∃ q, d = JsValue.number q ∧ q ≤ 0) → distanceToSimilarity d = 0) ∧
    (∀ q, d = JsValue.number q → q ≥ 1 → distanceToSimilarity d = 1) ∧
    (∀ q, d = JsValue.number q → 0 < q → q < 1 → distanceToSimilarity d = 1 - q) := by
  refine ⟨?_, ?_, ?_⟩
  · rintro (h | h | h | ⟨q, h, hq⟩)
    · subst h; simp [distanceToSimilarity]
    · subst h; simp [distanceToSimilarity]
    · cases d <;> simp [distanceToSimilarity, typeof] at h ⊢
    · subst h
      rw [distanceToSimilarity_number]
      have h1 : ¬ q ≥ 1 := by intro h1; linarith
      simp [h1, hq]
  · intro q h hq
    subst h
    rw [distanceToSimilarity_number]
    simp [hq]
  · intro q h h0 h1
    subst h
    rw [distanceToSimilarity_number]
    have a : ¬ q ≥ 1 := not_le.mpr h1
    have b : ¬ q ≤ 0 := not_le.mpr h0
    simp [a, b]

/-- Witness for C1: the three branches at `null`, `-2`, `3` and `1/4`. -/
theorem distanceToSimilarity_cases_witness :
    distanceToSimilarity JsValue.null = 0 ∧
    ((-2 : ℚ) ≤ 0 ∧ distanceToSimilarity (JsValue.number (-2)) = 0) ∧
    ((3 : ℚ) ≥ 1 ∧ distanceToSimilarity (JsValue.number 3) = 1) ∧
    ((0 : ℚ) < 1 / 4 ∧ (1 / 4 : ℚ) < 1 ∧
      distanceToSimilarity (JsValue.number (1 / 4)) = 1 - 1 / 4) :=
  ⟨(distanceToSimilarity_cases JsValue.null).1 (Or.inl rfl),
   ⟨by norm_num,
    (distanceToSimilarity_cases (JsValue.number (-2))).1
      (Or.inr (Or.inr (Or.inr ⟨-2, rfl, by norm_num⟩)))⟩,
   ⟨by norm_num, (distanceToSimilarity_cases (JsValue.number 3)).2.1 3 rfl (by norm_num)⟩,
   ⟨by norm_num, by norm_num,
    (distanceToSimilarity_cases (JsValue.number (1 / 4))).2.2 (1 / 4) rfl
      (by norm_num) (by norm_num)⟩⟩

/-- C2 (fails on the code): `distanceToSimilarity` is not non-increasing in the distance.
Distance 0 maps to 0 while the larger distance 1/2 maps to 1/2, and distance 1/2 maps to 1/2
while the larger distance 1 maps to 1. -/
theorem distanceToSimilarity_not_antitone :
    (distanceToSimilarity (JsValue.number 0) = 0 ∧
      distanceToSimilarity (JsValue.number (1 / 2)) = 1 / 2 ∧
      distanceToSimilarity (JsValue.number 1) = 1) ∧
    ¬ (∀ d1 d2 : ℚ, d1 ≤ d2 →
        distanceToSimilarity (JsValue.number d1) ≥ distanceToSimilarity (JsValue.number d2)) := by
  have h0 : distanceToSimilarity (JsValue.number 0) = 0 := by
    rw [distanceToSimilarity_number]; norm_num
  have h1 : distanceToSimilarity (JsValue.number 1) = 1 := by
    rw [distanceToSimilarity_number]; norm_num
  have h2 : distanceToSimilarity (JsValue.number (1 / 2)) = 1 / 2 := by
    rw [distanceToSimilarity_number]; norm_num
  refine ⟨⟨h0, h2, h1⟩, ?_⟩
  intro h
  have := h 0 1 (by norm_num)
  rw [h0, h1] at this
  norm_num at this

/-- C3 (fails on the code): the boundary values the code takes are
`distanceToSimilarity(0) = 0` (the claim says 1), `distanceToSimilarity(1) = 1` and
`distanceToSimilarity(5) = 1` (the claim says 0 for every `d >= 1`), and
`distanceToSimilarity(null) = 0` (as claimed). -/
theorem distanceToSimilarity_boundary_values :
    distanceToSimilarity (JsValue.number 0) = 0 ∧
    distanceToSimilarity (JsValue.number 1) = 1 ∧
    distanceToSimilarity (JsValue.number 5) = 1 ∧
    distanceToSimilarity JsValue.null = 0 ∧
    distanceToSimilarity (JsValue.number 0) ≠ 1 ∧
    distanceToSimilarity (JsValue.number 1) ≠ 0 := by
  have h0 : distanceToSimilarity (JsValue.number 0) = 0 := by
    rw [distanceToSimilarity_number]; norm_num
  have h1 : distanceToSimilarity (JsValue.number 1) = 1 := by
    rw [distanceToSimilarity_number]; norm_num
  have h5 : distanceToSimilarity (JsValue.number 5) = 1 := by
    rw [distanceToSimilarity_number]; norm_num
  refine ⟨h0, h1, h5, by simp [distanceToSimilarity], ?_, ?_⟩
  · rw [h0]; norm_num
  · rw [h1]; norm_num

/-- C4 (fails on the code): with rows of distances 1/2 and 9/10 and threshold 1/4 the second
row is below the threshold (similarity 1/10), yet the result still holds the first row. -/
theorem similarityResponse_keeps_earlier_rows :
    (∃ r ∈ [({ metadata := [("text", JsValue.string "a")], score := JsValue.number (1 / 2) } : AnnRow),
            { metadata := [("text", JsValue.string "b")], score := JsValue.number (9 / 10) }],
        distanceToSimilarity r.score < 1 / 4) ∧
    similarityResponse
        [{ metadata := [("text", JsValue.string "a")], score := JsValue.number (1 / 2) },
         { metadata := [("text", JsValue.string "b")], score := JsValue.number (9 / 10) }] (1 / 4) =
      { contextTexts := [JsValue.string "a"]
        sourceDocuments :=
          [{ metadata := [("text", JsValue.string "a")], score := JsValue.number (1 / 2) }]
        scores := [1 / 2] } ∧
    ¬ ((similarityResponse
        [{ metadata := [("text", JsValue.string "a")], score := JsValue.number (1 / 2) },
         { metadata := [("text", JsValue.string "b")], score := JsValue.number (9 / 10) }]
        (1 / 4)).contextTexts = []) := by
  have h1 : distanceToSimilarity (JsValue.number (1 / 2)) = 1 / 2 := by
    rw [distanceToSimilarity_number]; norm_num
  have h2 : distanceToSimilarity (JsValue.number (9 / 10)) = 1 / 10 := by
    rw [distanceToSimilarity_number]; norm_num
  have h3 : similarityResponse
        [{ metadata := [("text", JsValue.string "a")], score := JsValue.number (1 / 2) },
         { metadata := [("text", JsValue.string "b")], score := JsValue.number (9 / 10) }] (1 / 4) =
      { contextTexts := [JsValue.string "a"]
        sourceDocuments :=
          [{ metadata := [("text", JsValue.string "a")], score := JsValue.number (1 / 2) }]
        scores := [1 / 2] } := by
    simp only [similarityResponse, similarityScan, h1, h2]
    norm_num [JsObject.get, List.lookup]
  refine ⟨⟨_, List.mem_cons_of_mem _ (List.mem_singleton.mpr rfl), ?_⟩, h3, ?_⟩
  · show distanceToSimilarity (JsValue.number (9 / 10)) < 1 / 4
    rw [h2]; norm_num
  · rw [h3]; simp

/-- C4 (amended): when a row is below the threshold and every row before it is not, the scan
stops at that row and returns exactly the rows before it: their texts, the rows themselves
and their scores; the row itself and all rows after it are left out. -/
theorem similarityResponse_stops_at_first_below (pre post : List AnnRow) (r : AnnRow) (t : ℚ)
    (hpre : ∀ x ∈ pre, ¬ distanceToSimilarity x.score < t)
    (hr : distanceToSimilarity r.score < t) :
    similarityResponse (pre ++ r :: post) t =
      { contextTexts := pre.map (fun x => x.metadata.get "text")
        sourceDocuments := pre
        scores := pre.map (fun x => distanceToSimilarity x.score) } := by
  unfold similarityResponse
  rw [similarityScan_append t pre (r :: post) _ hpre]
  simp [similarityScan, hr]

/-- Witness for C4 (amended): one row of similarity 1/2 followed by a row of similarity 1/10,
threshold 1/4. -/
theorem similarityResponse_stops_at_first_below_witness :
    similarityResponse
        ([{ metadata := [("text", JsValue.string "a")], score := JsValue.number (1 / 2) }] ++
          { metadata := [("text", JsValue.string "b")], score := JsValue.number (9 / 10) } :: [])
        (1 / 4) =
      { contextTexts :=
          [({ metadata := [("text", JsValue.string "a")],
              score := JsValue.number (1 / 2) } : AnnRow)].map (fun x => x.metadata.get "text")
        sourceDocuments :=
          [{ metadata := [("text", JsValue.string "a")], score := JsValue.number (1 / 2) }]
        scores :=
          [({ metadata := [("text", JsValue.string "a")],
              score := JsValue.number (1 / 2) } : AnnRow)].map
            (fun x => distanceToSimilarity x.score) } :=
  similarityResponse_stops_at_first_below _ [] _ (1 / 4)
    (by
      intro x hx
      rw [List.mem_singleton.mp hx]
      show ¬ distanceToSimilarity (JsValue.number (1 / 2)) < 1 / 4
      rw [distanceToSimilarity_number]; norm_num)
    (by
      show distanceToSimilarity (JsValue.number (9 / 10)) < 1 / 4
      rw [distanceToSimilarity_number]; norm_num)

/-- C10: `similarityResponse` returns the longest leading run of rows whose similarity is at
least the threshold: `sourceDocuments` is that run in order, `contextTexts` and `scores` are
its `metadata.text` values and its similarities, every returned score is at least the
threshold, and the run is maximal (the rows are the run followed by nothing or by a row
below the threshold). -/
theorem similarityResponse_longest_qualifying_run (rows : List AnnRow) (t : ℚ) :
    (similarityResponse rows t).sourceDocuments =
        rows.takeWhile (fun r => decide (t ≤ distanceToSimilarity r.score)) ∧
    (similarityResponse rows t).contextTexts =
        (similarityResponse rows t).sourceDocuments.map (fun r => r.metadata.get "text") ∧
    (similarityResponse rows t).scores =
        (similarityResponse rows t).sourceDocuments.map (fun r => distanceToSimilarity r.score) ∧
    (∀ r ∈ (similarityResponse rows t).sourceDocuments, t ≤ distanceToSimilarity r.score) ∧
    (∀ s ∈ (similarityResponse rows t).scores, t ≤ s) ∧
    (∃ post, rows = (similarityResponse rows t).sourceDocuments ++ post ∧
      ∀ r, post.head? = some r → distanceToSimilarity r.score < t) := by
  rw [similarityResponse_takeWhile]
  have hall : ∀ r ∈ rows.takeWhile (fun r => decide (t ≤ distanceToSimilarity r.score)),
      t ≤ distanceToSimilarity r.score := by
    intro r hr
    simpa using List.mem_takeWhile_imp hr
  refine ⟨rfl, rfl, rfl, hall, ?_, ?_⟩
  · intro s hs
    obtain ⟨r, hr, rfl⟩ := List.mem_map.mp hs
    exact hall r hr
  · refine ⟨rows.dropWhile (fun r => decide (t ≤ distanceToSimilarity r.score)),
      (List.takeWhile_append_dropWhile _ rows).symm, ?_⟩
    intro r hr
    have := List.head?_dropWhile_not (fun r => decide (t ≤ distanceToSimilarity r.score)) rows
    rw [hr] at this
    simpa using this

theorem curateSources_filter_map (sources : List Source) :
    curateSources sources =
      (sources.filter
        (fun s => decide (0 < (JsObject.keys (s.metadata.getD [])).length))).map curatedRecord := by
  have key : ∀ (l : List Source) (acc : List JsObject),
      l.foldl
        (fun documents source =>
          if (JsObject.keys (source.metadata.getD [])).length > 0 then
            documents ++ [curatedRecord source]
          else documents) acc =
      acc ++ (l.filter
        (fun s => decide (0 < (JsObject.keys (s.metadata.getD [])).length))).map curatedRecord := by
    intro l
    induction l with
    | nil => intro acc; simp
    | cons x xs ih =>
      intro acc
      by_cases hx : 0 < (JsObject.keys (x.metadata.getD [])).length
      · simp [List.foldl_cons, List.filter_cons, hx, ih]
      · simp [List.foldl_cons, List.filter_cons, hx, ih]
  simpa [curateSources] using key sources []

/-- C5: `curateSources` returns, in input order, one record for each source whose metadata
has at least one key and none for a source whose metadata is empty or absent; for the
sources with metadata `{}` and `{topic: "x"}` only the second yields a record, also when they
come from two query rows of equal score through `similarityResponse`. -/
theorem curateSources_drops_empty_metadata (sources : List Source) :
    curateSources sources =
      (sources.filter
        (fun s => decide (0 < (JsObject.keys (s.metadata.getD [])).length))).map curatedRecord ∧
    (∀ s : Source, ¬ 0 < (JsObject.keys (s.metadata.getD [])).length ↔
      (s.metadata = none ∨ s.metadata = some [])) ∧
    curateSources
        [{ metadata := some [], pageContent := none, fields := [] },
         { metadata := some [("topic", JsValue.string "x")], pageContent := none, fields := [] }] =
      [[("topic", JsValue.string "x")]] ∧
    curateSources (searchSources (similarityResponse
        [{ metadata := [], score := JsValue.number (1 / 2) },
         { metadata := [("topic", JsValue.string "x")], score := JsValue.number (1 / 2) }]
        (1 / 4))) =
      [[("topic", JsValue.string "x")]] := by
  refine ⟨curateSources_filter_map sources, ?_, ?_, ?_⟩
  · intro s
    cases h : s.metadata with
    | none => simp [JsObject.keys]
    | some o => cases o <;> simp [JsObject.keys]
  · simp [curateSources_filter_map, JsObject.keys, curatedRecord]
  · have h1 : distanceToSimilarity (JsValue.number (1 / 2)) = 1 / 2 := by
      rw [distanceToSimilarity_number]; norm_num
    have h2 : similarityResponse
        [{ metadata := [], score := JsValue.number (1 / 2) },
         { metadata := [("topic", JsValue.string "x")], score := JsValue.number (1 / 2) }]
        (1 / 4) =
        { contextTexts := [JsValue.undefined, JsValue.undefined]
          sourceDocuments :=
            [{ metadata := [], score := JsValue.number (1 / 2) },
             { metadata := [("topic", JsValue.string "x")], score := JsValue.number (1 / 2) }]
          scores := [1 / 2, 1 / 2] } := by
      have hk : ("text" == "topic") = false := by decide
      simp only [similarityResponse, similarityScan, h1]
      norm_num [JsObject.get, List.lookup, hk]
    rw [h2]
    simp [curateSources_filter_map, searchSources, List.enum, List.enumFrom, JsObject.keys,
      curatedRecord]

theorem namespaceExists_eq (vtbs : List JsObject) (name : String) (h : name ≠ "") :
    namespaceExists vtbs (some name) =
      Except.ok ((vtbs.map firstValue).contains (JsValue.string name)) := by
  simp [namespaceExists, h]

/-- C9 (fails on the code): with the table listing holding `VTB_ws1`, the physical table of
namespace `ws1`, `namespaceExists("ws1")` returns false although `VTB_ws1` is listed, and
`performSimilaritySearch` on `ws1` answers with the no-documents message. -/
theorem namespaceExists_ignores_table_name
    (select : String → List ℚ → Nat → Except String (List AnnRow))
    (embed : JsValue → Except String (List ℚ)) :
    tableName "ws1" = "VTB_ws1" ∧
    JsValue.string (tableName "ws1") ∈
      [[("Tables_in_db (VTB_%)", JsValue.string "VTB_ws1")]].map firstValue ∧
    namespaceExists [[("Tables_in_db (VTB_%)", JsValue.string "VTB_ws1")]] (some "ws1") =
      Except.ok false ∧
    namespaceExists [[("Tables_in_db (VTB_%)", JsValue.string "VTB_ws1")]] (some "VTB_ws1") =
      Except.ok true ∧
    performSimilaritySearch (Except.ok ()) [[("Tables_in_db (VTB_%)", JsValue.string "VTB_ws1")]]
        select (some "ws1") (JsValue.string "hello") (some embed) =
      Except.ok
        { contextTexts := []
          sources := []
          message := JsValue.string "Invalid query - no documents found for workspace!" } := by
  have ht : tableName "ws1" = "VTB_ws1" := by decide
  have h1 : namespaceExists [[("Tables_in_db (VTB_%)", JsValue.string "VTB_ws1")]] (some "ws1") =
      Except.ok false := by
    rw [namespaceExists_eq _ _ (by decide)]
    simp [firstValue]
  refine ⟨ht, ?_, h1, ?_, ?_⟩
  · rw [ht]; simp [firstValue]
  · rw [namespaceExists_eq _ _ (by decide)]
    simp [firstValue]
  · have hn : ¬ ("ws1" = "") := by decide
    simp [performSimilaritySearch, h1, truthy, hn]

theorem clean_snoc (log : List Call) (step : Step) (h : Clean log) :
    Clean (log ++ [{ step := step, threw := none }]) := by
  intro c hc
  rcases List.mem_append.mp hc with hc | hc
  · exact h c hc
  · rw [List.mem_singleton.mp hc]

theorem sound_ret {α : Type} (v : α) : Sound (ret v) := by
  intro log h
  exact h

theorem sound_raise {α : Type} (step : Step) (m : String) : Sound (raise (α := α) step m) := by
  intro log h c hc m' hm'
  rcases List.mem_append.mp hc with hc | hc
  · rw [h c hc] at hm'; cases hm'
  · rw [List.mem_singleton.mp hc] at hm'
    exact (Option.some.inj hm').symm

theorem sound_call {α β : Type} (step : Step) (outcome : Except String α) (k : α → Run β)
    (hk : ∀ a, Sound (k a)) : Sound (call step outcome k) := by
  intro log h
  cases outcome with
  | ok a => exact hk a _ (clean_snoc log step h)
  | error m => exact sound_raise (α := β) step m log h

theorem sound_andThen {α β : Type} (r : Run α) (k : α → Run β) (hr : Sound r)
    (hk : ∀ a, Sound (k a)) : Sound (andThen r k) := by
  intro log h
  have h1 := hr log h
  unfold andThen
  rcases hrl : r log with ⟨res, log1⟩
  rw [hrl] at h1
  cases res with
  | ok a => exact hk a log1 h1
  | error m => exact h1

theorem createRows_sound (w : World) (table : String) (dim : Nat) (rows : List WriteRow) :
    Sound (createRows w table dim rows) := by
  induction rows with
  | nil => exact sound_ret ()
  | cons x xs ih => exact sound_call _ _ _ (fun _ => ih)

theorem updateOrCreateCollection_sound (w : World) (data : WriteData) (ns : String) :
    Sound (updateOrCreateCollection w data ns) := by
  unfold updateOrCreateCollection
  split
  · exact sound_raise _ _
  · refine sound_call _ _ _ (fun _ => ?_)
    refine sound_call _ _ _ (fun _ => ?_)
    refine sound_call _ _ _ (fun _ => ?_)
    exact createRows_sound _ _ _ _

theorem updateOrCreateCollection_array (w : World) (rows : List WriteRow) (ns : String)
    (log : List Call) :
    updateOrCreateCollection w { rows := rows, vector := none } ns log =
      (Except.error (w.undefinedRead "length"),
        log ++ [{ step := Step.dataVectorLength, threw := some (w.undefinedRead "length") }]) := by
  simp [updateOrCreateCollection, raise]

theorem addDocumentBody_sound (w : World) (ns : String) (documentData : JsObject)
    (fullFilePath : Option String) : Sound (addDocumentBody w ns documentData fullFilePath) := by
  unfold addDocumentBody
  simp only []
  split
  · exact sound_ret _
  · refine sound_call _ _ _ (fun cacheResult => ?_)
    split
    · refine sound_call _ _ _ (fun _ => ?_)
      refine sound_andThen _ _ (updateOrCreateCollection_sound _ _ _) (fun _ => ?_)
      refine sound_call _ _ _ (fun _ => ?_)
      exact sound_ret _
    · refine sound_call _ _ _ (fun selection => ?_)
      refine sound_call _ _ _ (fun textChunks => ?_)
      refine sound_call _ _ _ (fun _ => ?_)
      refine sound_call _ _ _ (fun vectorValues => ?_)
      split
      · exact sound_raise _ _
      · exact sound_raise _ _
      · split
        · refine sound_call _ _ _ (fun _ => ?_)
          refine sound_andThen _ _ (updateOrCreateCollection_sound _ _ _) (fun _ => ?_)
          refine sound_call _ _ _ (fun _ => ?_)
          refine sound_call _ _ _ (fun _ => ?_)
          exact sound_ret _
        · refine sound_call _ _ _ (fun _ => ?_)
          exact sound_ret _

theorem addDocumentBody_empty (w : World) (ns : String) (documentData : JsObject)
    (fullFilePath : Option String) (h : emptyContent (documentData.get "pageContent") = true) :
    addDocumentToNamespace w ns documentData fullFilePath =
      (Except.ok (Returned.value (JsValue.boolean false)), []) := by
  simp [addDocumentToNamespace, addDocumentBody, h, ret]

theorem addDocument_lookup_throws (w : World) (ns : String) (documentData : JsObject)
    (fullFilePath : Option String) (m : String)
    (hne : emptyContent (documentData.get "pageContent") = false)
    (h : w.cachedVectorInformation fullFilePath = Except.error m) :
    (addDocumentToNamespace w ns documentData fullFilePath).1 =
      Except.ok (vectorizedError m) := by
  simp [addDocumentToNamespace, addDocumentBody, call, hne, h]

theorem addDocument_hit (w : World) (ns : String) (documentData : JsObject)
    (fullFilePath : Option String) (cache : CacheResult)
    (hne : emptyContent (documentData.get "pageContent") = false)
    (h : w.cachedVectorInformation fullFilePath = Except.ok cache)
    (hx : cache.exists = true) :
    (∀ m, connect w = Except.error m →
      (addDocumentToNamespace w ns documentData fullFilePath).1 =
        Except.ok (vectorizedError m)) ∧
    (connect w = Except.ok () →
      (addDocumentToNamespace w ns documentData fullFilePath).1 =
        Except.ok (vectorizedError (w.undefinedRead "length"))) := by
  constructor
  · intro m hc
    simp [addDocumentToNamespace, addDocumentBody, call, hne, h, hx, hc]
  · intro hc
    simp [addDocumentToNamespace, addDocumentBody, call, andThen,
      updateOrCreateCollection_array, hne, h, hx, hc]

theorem addDocument_miss_embedded (w : World) (ns : String) (documentData : JsObject)
    (fullFilePath : Option String) (cache : CacheResult) (selection : Option Nat)
    (textChunks : List String)
    (hne : emptyContent (documentData.get "pageContent") = false)
    (h : w.cachedVectorInformation fullFilePath = Except.ok cache)
    (hx : cache.exists = false)
    (hs : w.getEmbeddingEngineSelection = Except.ok selection)
    (ht : w.splitText (chunkSize selection) 20 (documentData.get "pageContent") =
      Except.ok textChunks)
    (hp : w.getLLMProvider = Except.ok ()) :
    (∀ m, w.embedChunks textChunks = Except.error m →
      (addDocumentToNamespace w ns documentData fullFilePath).1 =
        Except.ok (vectorizedError m)) ∧
    (w.embedChunks textChunks = Except.ok none →
      (addDocumentToNamespace w ns documentData fullFilePath).1 =
        Except.ok (vectorizedError couldNotEmbed)) ∧
    (w.embedChunks textChunks = Except.ok (some []) →
      (addDocumentToNamespace w ns documentData fullFilePath).1 =
        Except.ok (vectorizedError couldNotEmbed)) ∧
    (∀ v vs, w.embedChunks textChunks = Except.ok (some (v :: vs)) →
      (∀ m, connect w = Except.error m →
        (addDocumentToNamespace w ns documentData fullFilePath).1 =
          Except.ok (vectorizedError m)) ∧
      (connect w = Except.ok () →
        (addDocumentToNamespace w ns documentData fullFilePath).1 =
          Except.ok (vectorizedError (w.undefinedRead "length")))) := by
  refine ⟨?_, ?_, ?_, ?_⟩
  · intro m he
    simp [addDocumentToNamespace, addDocumentBody, call, hne, h, hx, hs, ht, hp, he]
  · intro he
    simp [addDocumentToNamespace, addDocumentBody, call, raise, hne, h, hx, hs, ht, hp, he]
  · intro he
    simp [addDocumentToNamespace, addDocumentBody, call, raise, hne, h, hx, hs, ht, hp, he]
  · intro v vs he
    constructor
    · intro m hc
      simp [addDocumentToNamespace, addDocumentBody, call, hne, h, hx, hs, ht, hp, he, hc,
        List.enum]
    · intro hc
      simp [addDocumentToNamespace, addDocumentBody, call, andThen,
        updateOrCreateCollection_array, hne, h, hx, hs, ht, hp, he, hc, List.enum]

theorem addDocument_miss (w : World) (ns : String) (documentData : JsObject)
    (fullFilePath : Option String) (cache : CacheResult)
    (hne : emptyContent (documentData.get "pageContent") = false)
    (h : w.cachedVectorInformation fullFilePath = Except.ok cache)
    (hx : cache.exists = false) :
    (∀ m, w.getEmbeddingEngineSelection = Except.error m →
      (addDocumentToNamespace w ns documentData fullFilePath).1 =
        Except.ok (vectorizedError m)) ∧
    (∀ selection, w.getEmbeddingEngineSelection = Except.ok selection →
      (∀ m, w.splitText (chunkSize selection) 20 (documentData.get "pageContent") =
          Except.error m →
        (addDocumentToNamespace w ns documentData fullFilePath).1 =
          Except.ok (vectorizedError m)) ∧
      (∀ textChunks,
        w.splitText (chunkSize selection) 20 (documentData.get "pageContent") =
          Except.ok textChunks →
        (∀ m, w.getLLMProvider = Except.error m →
          (addDocumentToNamespace w ns documentData fullFilePath).1 =
            Except.ok (vectorizedError m)))) := by
  refine ⟨?_, ?_⟩
  · intro m hs
    simp [addDocumentToNamespace, addDocumentBody, call, hne, h, hx, hs]
  · intro selection hs
    refine ⟨?_, ?_⟩
    · intro m ht
      simp [addDocumentToNamespace, addDocumentBody, call, hne, h, hx, hs, ht]
    · intro textChunks ht m hp
      simp [addDocumentToNamespace, addDocumentBody, call, hne, h, hx, hs, ht, hp]

theorem addDocument_never_vectorized (w : World) (ns : String) (documentData : JsObject)
    (fullFilePath : Option String) :
    (addDocumentToNamespace w ns documentData fullFilePath).1 ≠ Except.ok vectorizedOk := by
  have hv : ∀ m, (Except.ok (vectorizedError m) : Except String Returned) ≠
      Except.ok vectorizedOk := by
    intro m hm
    simp [vectorizedError, vectorizedOk] at hm
  cases hne : emptyContent (documentData.get "pageContent") with
  | true =>
    rw [addDocumentBody_empty w ns documentData fullFilePath hne]
    intro hm
    simp [vectorizedOk] at hm
  | false =>
    cases h : w.cachedVectorInformation fullFilePath with
    | error m => rw [addDocument_lookup_throws w ns documentData fullFilePath m hne h]; exact hv m
    | ok cache =>
      cases hx : cache.exists with
      | true =>
        have hh := addDocument_hit w ns documentData fullFilePath cache hne h hx
        cases hc : connect w with
        | error m => rw [hh.1 m hc]; exact hv m
        | ok u => cases u; rw [hh.2 hc]; exact hv _
      | false =>
        have hm := addDocument_miss w ns documentData fullFilePath cache hne h hx
        cases hs : w.getEmbeddingEngineSelection with
        | error m => rw [hm.1 m hs]; exact hv m
        | ok selection =>
          cases ht : w.splitText (chunkSize selection) 20 (documentData.get "pageContent") with
          | error m => rw [(hm.2 selection hs).1 m ht]; exact hv m
          | ok textChunks =>
            cases hp : w.getLLMProvider with
            | error m => rw [(hm.2 selection hs).2 textChunks ht m hp]; exact hv m
            | ok u =>
              cases u
              have he := addDocument_miss_embedded w ns documentData fullFilePath cache
                selection textChunks hne h hx hs ht hp
              cases hv2 : w.embedChunks textChunks with
              | error m => rw [he.1 m hv2]; exact hv m
              | ok vectorValues =>
                cases vectorValues with
                | none => rw [he.2.1 hv2]; exact hv _
                | some l =>
                  cases l with
                  | nil => rw [he.2.2.1 hv2]; exact hv _
                  | cons v vs =>
                    cases hc : connect w with
                    | error m => rw [(he.2.2.2 v vs hv2).1 m hc]; exact hv m
                    | ok u => cases u; rw [(he.2.2.2 v vs hv2).2 hc]; exact hv _

/-- C6 (fails on the code): for `{pageContent: "", docId: "d1"}` and for a document without
`pageContent`, `addDocumentToNamespace` makes no call at all and returns the bare boolean
`false`, which is not the record `{vectorized: false}`. -/
theorem addDocumentToNamespace_empty_returns_false (w : World) (ns : String)
    (fullFilePath : Option String) :
    addDocumentToNamespace w ns
        [("pageContent", JsValue.string ""), ("docId", JsValue.string "d1")] fullFilePath =
      (Except.ok (Returned.value (JsValue.boolean false)), []) ∧
    addDocumentToNamespace w ns [("docId", JsValue.string "d1")] fullFilePath =
      (Except.ok (Returned.value (JsValue.boolean false)), []) ∧
    Returned.value (JsValue.boolean false) ≠
      Returned.object [("vectorized", JsValue.boolean false)] := by
  refine ⟨?_, ?_, ?_⟩
  · exact addDocumentBody_empty w ns _ fullFilePath (by decide)
  · exact addDocumentBody_empty w ns _ fullFilePath (by decide)
  · intro h; cases h

/-- C7: `addDocumentToNamespace` always returns and never throws. Any recorded step that threw
a message `m` makes it return `{vectorized: false, error: m}`. For a document with content,
step by step: a throwing cache lookup, `connect`, engine selection, text splitting, provider
lookup or embedding with message `m` gives `{vectorized: false, error: m}`; an embedding
provider that returns `null` or an empty array gives `{vectorized: false, error: "Could not
embed document chunks! ..."}`; and once `connect` has returned, the collection write throws
the TypeError of line 133, which gives `{vectorized: false, error: <that message>}`, so the
cache store and the bulk insert behind it are not reached. It returns
`{vectorized: true, error: null}` only when no recorded step threw; in fact on no input. -/
theorem addDocumentToNamespace_catches (w : World) (ns : String) (documentData : JsObject)
    (fullFilePath : Option String) :
    (∃ r, (addDocumentToNamespace w ns documentData fullFilePath).1 = Except.ok r) ∧
    (∀ c ∈ (addDocumentToNamespace w ns documentData fullFilePath).2, ∀ m,
      c.threw = some m →
        (addDocumentToNamespace w ns documentData fullFilePath).1 =
          Except.ok (vectorizedError m)) ∧
    ((addDocumentToNamespace w ns documentData fullFilePath).1 = Except.ok vectorizedOk →
      ∀ c ∈ (addDocumentToNamespace w ns documentData fullFilePath).2, c.threw = none) ∧
    (addDocumentToNamespace w ns documentData fullFilePath).1 ≠ Except.ok vectorizedOk ∧
    (emptyContent (documentData.get "pageContent") = false →
      (∀ m, w.cachedVectorInformation fullFilePath = Except.error m →
        (addDocumentToNamespace w ns documentData fullFilePath).1 =
          Except.ok (vectorizedError m)) ∧
      (∀ cache, w.cachedVectorInformation fullFilePath = Except.ok cache →
        cache.exists = true →
        (∀ m, connect w = Except.error m →
          (addDocumentToNamespace w ns documentData fullFilePath).1 =
            Except.ok (vectorizedError m)) ∧
        (connect w = Except.ok () →
          (addDocumentToNamespace w ns documentData fullFilePath).1 =
            Except.ok (vectorizedError (w.undefinedRead "length")))) ∧
      (∀ cache, w.cachedVectorInformation fullFilePath = Except.ok cache →
        cache.exists = false →
        (∀ m, w.getEmbeddingEngineSelection = Except.error m →
          (addDocumentToNamespace w ns documentData fullFilePath).1 =
            Except.ok (vectorizedError m)) ∧
        (∀ selection, w.getEmbeddingEngineSelection = Except.ok selection →
          (∀ m, w.splitText (chunkSize selection) 20 (documentData.get "pageContent") =
              Except.error m →
            (addDocumentToNamespace w ns documentData fullFilePath).1 =
              Except.ok (vectorizedError m)) ∧
          (∀ textChunks,
            w.splitText (chunkSize selection) 20 (documentData.get "pageContent") =
              Except.ok textChunks →
            (∀ m, w.getLLMProvider = Except.error m →
              (addDocumentToNamespace w ns documentData fullFilePath).1 =
                Except.ok (vectorizedError m)) ∧
            (w.getLLMProvider = Except.ok () →
              (∀ m, w.embedChunks textChunks = Except.error m →
                (addDocumentToNamespace w ns documentData fullFilePath).1 =
                  Except.ok (vectorizedError m)) ∧
              (w.embedChunks textChunks = Except.ok none →
                (addDocumentToNamespace w ns documentData fullFilePath).1 =
                  Except.ok (vectorizedError couldNotEmbed)) ∧
              (w.embedChunks textChunks = Except.ok (some []) →
                (addDocumentToNamespace w ns documentData fullFilePath).1 =
                  Except.ok (vectorizedError couldNotEmbed)) ∧
              (∀ v vs, w.embedChunks textChunks = Except.ok (some (v :: vs)) →
                (∀ m, connect w = Except.error m →
                  (addDocumentToNamespace w ns documentData fullFilePath).1 =
                    Except.ok (vectorizedError m)) ∧
                (connect w = Except.ok () →
                  (addDocumentToNamespace w ns documentData fullFilePath).1 =
                    Except.ok (vectorizedError (w.undefinedRead "length"))))))))) := by
  have hs := addDocumentBody_sound w ns documentData fullFilePath [] (by intro c hc; cases hc)
  have hlog : (∃ r, (addDocumentToNamespace w ns documentData fullFilePath).1 = Except.ok r) ∧
      (∀ c ∈ (addDocumentToNamespace w ns documentData fullFilePath).2, ∀ m,
        c.threw = some m →
          (addDocumentToNamespace w ns documentData fullFilePath).1 =
            Except.ok (vectorizedError m)) ∧
      ((addDocumentToNamespace w ns documentData fullFilePath).1 = Except.ok vectorizedOk →
        ∀ c ∈ (addDocumentToNamespace w ns documentData fullFilePath).2, c.threw = none) := by
    unfold addDocumentToNamespace
    rcases hb : addDocumentBody w ns documentData fullFilePath [] with ⟨res, log⟩
    rw [hb] at hs
    cases res with
    | ok r =>
      have hclean : Clean log := hs
      refine ⟨⟨r, rfl⟩, ?_, ?_⟩
      · intro c hc m hm
        rw [hclean c hc] at hm; cases hm
      · intro _ c hc
        exact hclean c hc
    | error e =>
      have he : ∀ c ∈ log, ∀ m', c.threw = some m' → m' = e := hs
      refine ⟨⟨_, rfl⟩, ?_, ?_⟩
      · intro c hc m hm
        rw [he c hc m hm]
      · intro h
        simp [vectorizedError, vectorizedOk] at h
  refine ⟨hlog.1, hlog.2.1, hlog.2.2,
    addDocument_never_vectorized w ns documentData fullFilePath, ?_⟩
  intro hne
  refine ⟨fun m h => addDocument_lookup_throws w ns documentData fullFilePath m hne h,
    fun cache h hx => addDocument_hit w ns documentData fullFilePath cache hne h hx, ?_⟩
  intro cache h hx
  have hm := addDocument_miss w ns documentData fullFilePath cache hne h hx
  refine ⟨hm.1, fun selection hsel => ⟨(hm.2 selection hsel).1, ?_⟩⟩
  intro textChunks ht
  exact ⟨(hm.2 selection hsel).2 textChunks ht,
    fun hp => addDocument_miss_embedded w ns documentData fullFilePath cache selection
      textChunks hne h hx hsel ht hp⟩

/-- Witness for C7: an embedding provider that returns no vectors gives
`{vectorized: false, error: "Could not embed document chunks! ..."}`; one that throws `boom`
gives `{vectorized: false, error: "boom"}`; and when every outside call returns, the
collection write throws and its TypeError message is returned. -/
theorem addDocumentToNamespace_catches_witness :
    (addDocumentToNamespace noVectorsWorld "ws1" sampleDocument none).1 =
      Except.ok (vectorizedError couldNotEmbed) ∧
    (addDocumentToNamespace failingWorld "ws1" sampleDocument none).1 =
      Except.ok (vectorizedError "boom") ∧
    (addDocumentToNamespace quietWorld "ws1" sampleDocument none).1 =
      Except.ok (vectorizedError (quietWorld.undefinedRead "length")) ∧
    (addDocumentToNamespace cachedWorld "ws1" sampleDocument none).1 =
      Except.ok (vectorizedError (cachedWorld.undefinedRead "length")) :=
  have hne : emptyContent (sampleDocument.get "pageContent") = false := by decide
  ⟨((((((addDocumentToNamespace_catches noVectorsWorld "ws1" sampleDocument none).2.2.2.2
      hne).2.2 { «exists» := false, chunks := [] } rfl rfl).2 none rfl).2
      ["a", "b"] rfl).2 rfl).2.1 rfl,
   ((((((addDocumentToNamespace_catches failingWorld "ws1" sampleDocument none).2.2.2.2
      hne).2.2 { «exists» := false, chunks := [] } rfl rfl).2 none rfl).2
      ["a", "b"] rfl).2 rfl).1 "boom" rfl,
   (((((((addDocumentToNamespace_catches quietWorld "ws1" sampleDocument none).2.2.2.2
      hne).2.2 { «exists» := false, chunks := [] } rfl rfl).2 none rfl).2
      ["a", "b"] rfl).2 rfl).2.2.2 [1, 0] [[0, 1]] rfl).2 rfl,
   (((addDocumentToNamespace_catches cachedWorld "ws1" sampleDocument none).2.2.2.2
      hne).2.1 { «exists» := true, chunks := [[{ values := [1, 0], metadata := [] }]] }
      rfl rfl).2 rfl⟩

/-- C8: the serialiser `_stringify` of a column of dimension `dim` throws for a value that is
not an array of exactly `dim` elements, and for an array of exactly `dim` elements returns the
quoted literal made of all its elements in order, separated by commas. Writing a row against
a column of dimension `dim` (`createRow`) therefore fails, without sending an insert, when
the row's vector is not an array of exactly `dim` numbers, and otherwise inserts the literal
of the whole vector. The write `updateOrCreateCollection` itself throws on every input, at
the read of line 133 or the call of line 141, before a table is defined or a row created, so
no vector is stored padded or truncated. -/
theorem stringify_exact_dimension (numberToString : ℚ → String) (dim : Nat)
    (value : FieldValue) :
    (∀ elements, value = FieldValue.array elements → elements.length = dim →
      OBVECTOR._stringify numberToString dim value =
        Except.ok
          ("'[" ++ String.intercalate "," (elements.map (joinElement numberToString)) ++ "]'")) ∧
    ((¬ ∃ elements, value = FieldValue.array elements ∧ elements.length = dim) →
      OBVECTOR._stringify numberToString dim value =
        Except.error ("VECTOR(" ++ toString dim ++ ") received a value of incorrect dimension")) ∧
    (∀ (w : World) (table : String) (new_row : WriteRow),
      (∀ elements, new_row.embedding = FieldValue.array elements → elements.length = dim →
        createRow w table dim new_row =
          w.insert table new_row.id
            ("'[" ++ String.intercalate "," (elements.map (joinElement w.numberToString)) ++ "]'")
            new_row.metadata) ∧
      ((¬ ∃ elements, new_row.embedding = FieldValue.array elements ∧ elements.length = dim) →
        createRow w table dim new_row =
          Except.error
            ("VECTOR(" ++ toString dim ++ ") received a value of incorrect dimension"))) ∧
    (∀ (w : World) (data : WriteData) (ns : String) (log : List Call),
      (∃ m, (updateOrCreateCollection w data ns log).1 = Except.error m) ∧
      (∀ c ∈ (updateOrCreateCollection w data ns log).2,
        c ∈ log ∨ c.step = Step.dataVectorLength ∨ c.step = Step.columnType)) ∧
    (∀ (w : World) (rows : List WriteRow) (ns : String) (log : List Call),
      updateOrCreateCollection w { rows := rows, vector := none } ns log =
        (Except.error (w.undefinedRead "length"),
          log ++ [{ step := Step.dataVectorLength,
                    threw := some (w.undefinedRead "length") }])) := by
  have hok : ∀ (f : ℚ → String) (v : FieldValue) (elements : List JsValue),
      v = FieldValue.array elements → elements.length = dim →
      OBVECTOR._stringify f dim v =
        Except.ok ("'[" ++ String.intercalate "," (elements.map (joinElement f)) ++ "]'") := by
    intro f v elements hv hlen
    subst hv
    simp [OBVECTOR._stringify, hlen]
  have herr : ∀ (f : ℚ → String) (v : FieldValue),
      (¬ ∃ elements, v = FieldValue.array elements ∧ elements.length = dim) →
      OBVECTOR._stringify f dim v =
        Except.error
          ("VECTOR(" ++ toString dim ++ ") received a value of incorrect dimension") := by
    intro f v h
    cases v with
    | array elements =>
      have hlen : ¬ elements.length = dim := fun hl => h ⟨elements, rfl, hl⟩
      show (if elements.length = dim then _ else _) = _
      rw [if_neg hlen]
    | other v => rfl
  refine ⟨hok numberToString value, herr numberToString value, ?_, ?_, ?_⟩
  · intro w table new_row
    constructor
    · intro elements hv hlen
      simp [createRow, hok w.numberToString _ elements hv hlen]
    · intro h
      simp [createRow, herr w.numberToString _ h]
  · intro w data ns log
    cases hd : data.vector with
    | none =>
      simp only [updateOrCreateCollection, hd, raise]
      refine ⟨⟨_, rfl⟩, ?_⟩
      intro c hc
      rcases List.mem_append.mp hc with hc | hc
      · exact Or.inl hc
      · rw [List.mem_singleton.mp hc]; exact Or.inr (Or.inl rfl)
    | some vector =>
      simp only [updateOrCreateCollection, hd, call, callOBVECTOR]
      refine ⟨⟨_, rfl⟩, ?_⟩
      intro c hc
      rcases List.mem_append.mp hc with hc | hc
      · exact Or.inl hc
      · rw [List.mem_singleton.mp hc]; exact Or.inr (Or.inr rfl)
  · intro w rows ns log
    exact updateOrCreateCollection_array w rows ns log

/-- Witness for C8: at dimension 2 the array `[1, 2]` is written whole, the array `[1]` and
the string `"x"` throw; a row whose vector has three numbers is refused by a column of
dimension 2; and the write of that row through `updateOrCreateCollection` throws at line 133
with nothing else recorded. -/
theorem stringify_exact_dimension_witness :
    OBVECTOR._stringify (fun q => toString q.num) 2
        (FieldValue.array [JsValue.number 1, JsValue.number 2]) = Except.ok "'[1,2]'" ∧
    OBVECTOR._stringify (fun q => toString q.num) 2
        (FieldValue.array [JsValue.number 1]) =
      Except.error "VECTOR(2) received a value of incorrect dimension" ∧
    OBVECTOR._stringify (fun q => toString q.num) 2
        (FieldValue.other (JsValue.string "x")) =
      Except.error "VECTOR(2) received a value of incorrect dimension" ∧
    createRow quietWorld "VTB_ws1" 2
        (WriteRow.submission { id := "a", vector := [1, 2, 3], metadata := [] }) =
      Except.error "VECTOR(2) received a value of incorrect dimension" ∧
    updateOrCreateCollection quietWorld
        { rows := [WriteRow.submission { id := "a", vector := [1, 2, 3], metadata := [] }],
          vector := none } "ws1" [] =
      (Except.error (quietWorld.undefinedRead "length"),
        [{ step := Step.dataVectorLength, threw := some (quietWorld.undefinedRead "length") }]) :=
  ⟨((stringify_exact_dimension (fun q => toString q.num) 2
        (FieldValue.array [JsValue.number 1, JsValue.number 2])).1 _ rfl rfl).trans
      (congrArg Except.ok (by decide)),
   ((stringify_exact_dimension (fun q => toString q.num) 2
        (FieldValue.array [JsValue.number 1])).2.1 (by simp)).trans
      (congrArg Except.error (by decide)),
   ((stringify_exact_dimension (fun q => toString q.num) 2
        (FieldValue.other (JsValue.string "x"))).2.1 (by simp)).trans
      (congrArg Except.error (by decide)),
   (((stringify_exact_dimension (fun q => toString q.num) 2
        (FieldValue.other JsValue.null)).2.2.1 quietWorld "VTB_ws1"
        (WriteRow.submission { id := "a", vector := [1, 2, 3], metadata := [] })).2
        (by simp [WriteRow.embedding])).trans
      (congrArg Except.error (by decide)),
   (stringify_exact_dimension (fun q => toString q.num) 2
        (FieldValue.other JsValue.null)).2.2.2.2 quietWorld _ "ws1" []⟩

/-- Witness for C10: a row of similarity 1/2 followed by a row of similarity 1/10 at
threshold 1/4; the returned rows are the leading run and every returned score is at least
the threshold. -/
theorem similarityResponse_longest_qualifying_run_witness :
    (similarityResponse
        [{ metadata := [("text", JsValue.string "a")], score := JsValue.number (1 / 2) },
         { metadata := [("text", JsValue.string "b")], score := JsValue.number (9 / 10) }]
        (1 / 4)).sourceDocuments =
      [({ metadata := [("text", JsValue.string "a")], score := JsValue.number (1 / 2) } : AnnRow),
       { metadata := [("text", JsValue.string "b")], score := JsValue.number (9 / 10) }].takeWhile
        (fun r => decide ((1 / 4 : ℚ) ≤ distanceToSimilarity r.score)) ∧
    ∀ s ∈ (similarityResponse
        [{ metadata := [("text", JsValue.string "a")], score := JsValue.number (1 / 2) },
         { metadata := [("text", JsValue.string "b")], score := JsValue.number (9 / 10) }]
        (1 / 4)).scores, (1 / 4 : ℚ) ≤ s :=
  ⟨(similarityResponse_longest_qualifying_run _ (1 / 4)).1,
   (similarityResponse_longest_qualifying_run _ (1 / 4)).2.2.2.2.1⟩

/-- Witness for C5: a source without metadata, one with `{}` and one with `{topic: "x"}` and a
`pageContent`; only the last yields a record, with the text merged in. -/
theorem curateSources_drops_empty_metadata_witness :
    curateSources
        [{ metadata := none, pageContent := none, fields := [] },
         { metadata := some [], pageContent := some (JsValue.string "p"), fields := [] },
         { metadata := some [("topic", JsValue.string "x")],
           pageContent := some (JsValue.string "p"), fields := [] }] =
      [[("topic", JsValue.string "x"), ("text", JsValue.string "p")]] :=
  ((curateSources_drops_empty_metadata
      [{ metadata := none, pageContent := none, fields := [] },
       { metadata := some [], pageContent := some (JsValue.string "p"), fields := [] },
       { metadata := some [("topic", JsValue.string "x")],
         pageContent := some (JsValue.string "p"), fields := [] }]).1).trans
    (by
      have hk : ("topic" == "text") = false := by decide
      simp [JsObject.keys, curatedRecord, JsObject.set, hk])

end OceanBase
